import Mathlib

set_option maxHeartbeats 1000000

/- Shallow embedding of the fare-calculation and trip-distance engine of this
repository (src/services/FareCalculationService.ts and
src/services/TripLocationTracker.ts).

JavaScript numbers are modelled as JsNum: either a finite rational or NaN.
Stored configuration fields are modelled as Option JsNum: none stands for an
absent (null or undefined) field, JsNum.nan for a malformed field whose numeric
conversion is NaN, and JsNum.num q for a field holding the finite number q.

The great-circle distance function (calculateDistance, imported by
FareCalculationService.ts from ../utils/maps which is not part of src/, and
calculateHaversineDistance in TripLocationTracker.ts) is transcendental
(sine, cosine, atan2, square root), so it has no computable rational form.
It is abstracted as an explicit function parameter DistFn throughout; every
theorem below quantifies over the distance function and therefore holds for
the actual Haversine function as a special case. -/

/-- A JavaScript number as used by the fare engine: NaN or a finite rational. -/
inductive JsNum where
  | nan : JsNum
  | num : ℚ → JsNum
deriving DecidableEq, Repr

namespace JsNum

/-- JavaScript addition: NaN propagates. -/
def add : JsNum → JsNum → JsNum
  | num a, num b => num (a + b)
  | _, _ => nan

/-- JavaScript subtraction: NaN propagates. -/
def sub : JsNum → JsNum → JsNum
  | num a, num b => num (a - b)
  | _, _ => nan

/-- JavaScript multiplication: NaN propagates. -/
def mul : JsNum → JsNum → JsNum
  | num a, num b => num (a * b)
  | _, _ => nan

/-- JavaScript division by two, as in distance / 2. -/
def half : JsNum → JsNum
  | num a => num (a / 2)
  | nan => nan

/-- JavaScript strict less-than: any comparison with NaN is false. -/
def blt : JsNum → JsNum → Bool
  | num a, num b => decide (a < b)
  | _, _ => false

/-- JavaScript less-or-equal: any comparison with NaN is false. -/
def ble : JsNum → JsNum → Bool
  | num a, num b => decide (a ≤ b)
  | _, _ => false

/-- JavaScript strict greater-than: any comparison with NaN is false. -/
def bgt (x y : JsNum) : Bool := blt y x

/-- The isNaN test of JavaScript. -/
def isNaNb : JsNum → Bool
  | nan => true
  | num _ => false

/-- Math.round of JavaScript: nearest integer, half rounds up (toward plus
infinity); NaN is preserved. -/
def round : JsNum → JsNum
  | num a => num ((Rat.floor (a + 1/2) : ℤ) : ℚ)
  | nan => nan

end JsNum

open JsNum

/-- Math.round on an already-finite value: floor of x + 1/2. -/
def roundQ (a : ℚ) : ℚ := ((Rat.floor (a + 1/2) : ℤ) : ℚ)

/-- Math.ceil on a finite value. -/
def ceilQ (a : ℚ) : ℤ := -(Rat.floor (-a))

/-- The JavaScript pattern Number(field) with a falsy-or default, as in
Number(raw) with the result replaced by d when it is NaN (malformed or absent
field) or zero (zero is falsy in JavaScript). -/
def numberOr (x : Option JsNum) (d : ℚ) : ℚ :=
  match x with
  | some (JsNum.num q) => if q = 0 then d else q
  | _ => d

/-- The same falsy-or pattern applied to an already-computed JavaScript number,
as in Number(deadheadResult.deadheadCharges) with a fallback of 0. -/
def numberOrJ (x : JsNum) (d : ℚ) : ℚ :=
  match x with
  | JsNum.num q => if q = 0 then d else q
  | JsNum.nan => d

/-- The JavaScript pattern parseFloat(field?.toString() with a string default):
an absent field parses the default d; a malformed field parses to NaN; a
numeric field parses to its value. -/
def parseFloatOr (x : Option JsNum) (d : ℚ) : JsNum :=
  match x with
  | none => JsNum.num d
  | some v => v

/-- Direct use of a stored field in arithmetic: an absent field behaves as NaN. -/
def getJs (x : Option JsNum) : JsNum := x.getD JsNum.nan

/-- The conversion isNaN(Number(field)) selecting 0, used for minimum_fare:
an absent field gives 0 (Number of null is 0, NaN maps to 0), a numeric field
gives its value, zero included. -/
def numberOrZero (x : Option JsNum) : ℚ :=
  match x with
  | some (JsNum.num q) => q
  | _ => 0

/-- An abstract point-to-point distance function (latitude and longitude of
each endpoint, in order); instantiated in the source by the transcendental
Haversine formula with Earth radius 6371 km. -/
def DistFn := JsNum → JsNum → JsNum → JsNum → JsNum

/-- Lower-casing a string, as in name.toLowerCase(). -/
def lowerStr (s : String) : String := String.mk (s.data.map Char.toLower)

/-- Substring containment over character lists, as in the includes method of
JavaScript strings. -/
def charsContain (needle : List Char) : List Char → Bool
  | [] => needle.isEmpty
  | c :: t => needle.isPrefixOf (c :: t) || charsContain needle t

/-- A row of the zones table (is_active rows only). -/
structure ZoneRow where
  name : String
  center_latitude : Option JsNum
  center_longitude : Option JsNum
  radius_km : Option JsNum
deriving DecidableEq, Repr

/-- The test zone.name.toLowerCase().includes(needle). -/
def zoneNameHas (needle : String) (z : ZoneRow) : Bool :=
  charsContain needle.data (lowerStr z.name).data

/-- A row of the fare_matrix table. -/
structure FareMatrixRow where
  base_fare : Option JsNum
  per_km_rate : Option JsNum
  surge_multiplier : Option JsNum
  platform_fee : Option JsNum
  minimum_fare : Option JsNum
deriving DecidableEq, Repr

/-- A row of the rental_fares table. -/
structure RentalFareRow where
  package_name : String
  base_fare : Option JsNum
  km_included : Option JsNum
  extra_km_rate : Option JsNum
  extra_minute_rate : Option JsNum
deriving DecidableEq, Repr

/-- A row of the outstation_fares table. -/
structure OutstationFareRow where
  base_fare : Option JsNum
  per_km_rate : Option JsNum
  driver_allowance_per_day : Option JsNum
  daily_km_limit : Option JsNum
deriving DecidableEq, Repr

/-- A row of the outstation_packages table (slab system). -/
structure OutstationPackageRow where
  slab_10km : Option JsNum
  slab_20km : Option JsNum
  slab_30km : Option JsNum
  slab_40km : Option JsNum
  slab_50km : Option JsNum
  slab_60km : Option JsNum
  slab_70km : Option JsNum
  slab_80km : Option JsNum
  slab_90km : Option JsNum
  slab_100km : Option JsNum
  slab_110km : Option JsNum
  slab_120km : Option JsNum
  slab_130km : Option JsNum
  slab_140km : Option JsNum
  slab_150km : Option JsNum
  extra_km_rate : Option JsNum
deriving DecidableEq, Repr

/-- A row of the airport_fares table. -/
structure AirportFareRow where
  hosur_to_airport_fare : Option JsNum
  airport_to_hosur_fare : Option JsNum
deriving DecidableEq, Repr

/-- The details bag of a FareBreakdown. Only the fields the source ever sets
are modelled; fields a branch does not set stay none. -/
structure FareDetails where
  actual_distance_km : JsNum
  actual_duration_minutes : ℚ
  base_km_included : Option JsNum := none
  extra_km : Option ℚ := none
  per_km_rate : JsNum
  per_minute_rate : Option ℚ := none
  surge_multiplier : Option ℚ := none
  platform_fee_flat : Option ℚ := none
  zone_detected : Option String := none
  is_inner_zone : Option Bool := none
  days_calculated : Option ℤ := none
  daily_km_limit : Option JsNum := none
  within_allowance : Option Bool := none
  package_name : Option String := none
  total_km_travelled : Option ℚ := none
  km_allowance : Option JsNum := none
  direction : Option String := none
  minimum_fare : Option ℚ := none
deriving DecidableEq, Repr

/-- The FareBreakdown result record of FareCalculationService. -/
structure FareBreakdown where
  booking_type : String
  vehicle_type : String
  base_fare : JsNum
  distance_fare : JsNum
  time_fare : JsNum
  surge_charges : JsNum
  deadhead_charges : JsNum
  platform_fee : JsNum
  gst_on_charges : JsNum
  gst_on_platform_fee : JsNum
  extra_km_charges : JsNum
  driver_allowance : JsNum
  total_fare : JsNum
  details : FareDetails
deriving DecidableEq, Repr

example : JsNum.round (num (5/2)) = num 3 := by norm_num [JsNum.round, Rat.floor]
example : JsNum.round (num (-5/2)) = num (-2) := by norm_num [JsNum.round, Rat.floor]
example : charsContain "inner ring".data (lowerStr "Hosur INNER RING zone").data = true := by decide
example : numberOr (some (num 0)) 1 = 1 := by decide

/-- Result record of calculateDeadheadCharges. -/
structure DeadheadResult where
  deadheadCharges : JsNum
  zoneDetected : String
  isInnerZone : Bool
deriving DecidableEq, Repr

/-- Latitude of the hardcoded Hosur Bus Stand reference point. -/
def HOSUR_BUS_STAND_LAT : ℚ := 12.7401984

/-- Longitude of the hardcoded Hosur Bus Stand reference point. -/
def HOSUR_BUS_STAND_LNG : ℚ := 77.824

/-- calculateDeadheadCharges of FareCalculationService.ts: finds the inner and
outer ring zones by name substring, then classifies the drop point by the
ordered containment tests and charges half the distance to the Hosur Bus Stand
times the per-km rate in the between-rings case. -/
def calculateDeadheadCharges (d : DistFn) (dropLat dropLng : ℚ) (perKmRate : ℚ)
    (zones : List ZoneRow) : DeadheadResult :=
  match zones.find? (zoneNameHas "inner ring"), zones.find? (zoneNameHas "outer ring") with
  | some innerZone, some outerZone =>
      let innerRadiusKm := parseFloatOr innerZone.radius_km 0
      let outerRadiusKm := parseFloatOr outerZone.radius_km 0
      let innerCenterLat := parseFloatOr innerZone.center_latitude 0
      let innerCenterLng := parseFloatOr innerZone.center_longitude 0
      let outerCenterLat := parseFloatOr outerZone.center_latitude 0
      let outerCenterLng := parseFloatOr outerZone.center_longitude 0
      let distanceToInnerCenter := d (num dropLat) (num dropLng) innerCenterLat innerCenterLng
      let distanceToOuterCenter := d (num dropLat) (num dropLng) outerCenterLat outerCenterLng
      if ble distanceToInnerCenter innerRadiusKm then
        { deadheadCharges := num 0, zoneDetected := innerZone.name, isInnerZone := true }
      else if bgt distanceToOuterCenter outerRadiusKm then
        { deadheadCharges := num 0, zoneDetected := "Beyond Outer Zone", isInnerZone := false }
      else
        let distanceToHosurBusStand :=
          d (num dropLat) (num dropLng) (num HOSUR_BUS_STAND_LAT) (num HOSUR_BUS_STAND_LNG)
        let halfDistance := JsNum.half distanceToHosurBusStand
        { deadheadCharges := JsNum.mul halfDistance (num perKmRate),
          zoneDetected := "Between Inner and Outer Ring", isInnerZone := false }
  | _, _ => { deadheadCharges := num 0, zoneDetected := "Unknown", isInnerZone := false }

/-- calculateRegularFare of FareCalculationService.ts, after the fare-matrix
row has been resolved. The platform-fee cascade of parseFloat, Number and
direct assignment collapses under the JsNum abstraction to: a finite stored
value is used as is, anything else falls back to 10. -/
def calculateRegularFare (d : DistFn) (fareMatrix : FareMatrixRow) (vehicleType : String)
    (actualDistanceKm actualDurationMinutes : ℚ)
    (dropLat dropLng : ℚ) (zones : List ZoneRow) : FareBreakdown :=
  let platformFee : ℚ :=
    match fareMatrix.platform_fee with
    | some (JsNum.num q) => q
    | _ => 10
  let baseFare := numberOr fareMatrix.base_fare 0
  let baseKmIncluded : ℚ := 4
  let perKmRate := numberOr fareMatrix.per_km_rate 0
  let surgeMultiplier := numberOr fareMatrix.surge_multiplier 1
  let extraKm : ℚ := max 0 (actualDistanceKm - baseKmIncluded)
  let distanceFare := extraKm * perKmRate
  let deadheadResult := calculateDeadheadCharges d dropLat dropLng perKmRate zones
  let deadheadCharges := numberOrJ deadheadResult.deadheadCharges 0
  let subtotalBeforeSurge := baseFare + distanceFare + deadheadCharges
  let surgeCharges := subtotalBeforeSurge * (surgeMultiplier - 1)
  -- the isNaN re-validation of the source is the identity here: every value
  -- above is already a finite rational by construction of the sanitized reads
  let validBaseFare := baseFare
  let validDistanceFare := distanceFare
  let validDeadheadCharges := deadheadCharges
  let validSurgeCharges := surgeCharges
  let validPlatformFee := platformFee
  let chargesSubtotal := validBaseFare + validDistanceFare + validDeadheadCharges + validSurgeCharges
  let gstOnCharges := chargesSubtotal * (5/100)
  let gstOnPlatformFee := validPlatformFee * (18/100)
  let validGstOnCharges := gstOnCharges
  let validGstOnPlatformFee := gstOnPlatformFee
  let totalFareRaw := validBaseFare + validDistanceFare + validDeadheadCharges +
    validSurgeCharges + validPlatformFee + validGstOnCharges + validGstOnPlatformFee
  let totalFare := roundQ totalFareRaw
  { booking_type := "regular"
    vehicle_type := vehicleType
    base_fare := num validBaseFare
    distance_fare := num validDistanceFare
    time_fare := num 0
    surge_charges := num validSurgeCharges
    deadhead_charges := num validDeadheadCharges
    platform_fee := num validPlatformFee
    gst_on_charges := num validGstOnCharges
    gst_on_platform_fee := num validGstOnPlatformFee
    extra_km_charges := num 0
    driver_allowance := num 0
    total_fare := num totalFare
    details := {
      actual_distance_km := num actualDistanceKm
      actual_duration_minutes := actualDurationMinutes
      base_km_included := some (num baseKmIncluded)
      extra_km := some extraKm
      per_km_rate := num perKmRate
      surge_multiplier := some surgeMultiplier
      platform_fee_flat := some validPlatformFee
      zone_detected := some deadheadResult.zoneDetected
      is_inner_zone := some deadheadResult.isInnerZone
      minimum_fare := some (numberOrZero fareMatrix.minimum_fare) } }

/-- calculateRentalFare of FareCalculationService.ts, after the package row
has been resolved. The stored fields are used directly, without the Number or
isNaN sanitization the regular branch applies; only extra_minute_rate gets a
falsy-or default of 0. -/
def calculateRentalFare (rentalFare : RentalFareRow) (vehicleType : String)
    (actualDistanceKm actualDurationMinutes selectedHours : ℚ) : FareBreakdown :=
  let baseFare := getJs rentalFare.base_fare
  let kmIncluded := getJs rentalFare.km_included
  let extraKmRate := getJs rentalFare.extra_km_rate
  let extraMinuteRate := numberOr rentalFare.extra_minute_rate 0
  -- if (actualDistanceKm > kmIncluded): a NaN or absent km_included makes the
  -- comparison false, so the charge stays zero
  let ekPair : ℚ × JsNum :=
    match kmIncluded with
    | JsNum.num k =>
        if k < actualDistanceKm then
          (actualDistanceKm - k, JsNum.mul (num (actualDistanceKm - k)) extraKmRate)
        else (0, num 0)
    | JsNum.nan => (0, num 0)
  let extraKm := ekPair.1
  let extraKmCharges := ekPair.2
  let packageMinutes := selectedHours * 60
  let etPair : ℚ × ℚ :=
    if packageMinutes < actualDurationMinutes then
      (actualDurationMinutes - packageMinutes, (actualDurationMinutes - packageMinutes) * extraMinuteRate)
    else (0, 0)
  let extraTimeCharges := etPair.2
  let withinAllowance := extraKmCharges = num 0 ∧ extraTimeCharges = 0
  let totalFareRaw := JsNum.add (JsNum.add baseFare extraKmCharges) (num extraTimeCharges)
  let totalFare := JsNum.round totalFareRaw
  { booking_type := "rental"
    vehicle_type := vehicleType
    base_fare := baseFare
    distance_fare := extraKmCharges
    time_fare := num extraTimeCharges
    surge_charges := num 0
    deadhead_charges := num 0
    platform_fee := num 0
    gst_on_charges := num 0
    gst_on_platform_fee := num 0
    extra_km_charges := extraKmCharges
    driver_allowance := num 0
    total_fare := totalFare
    details := {
      actual_distance_km := num actualDistanceKm
      actual_duration_minutes := actualDurationMinutes
      base_km_included := some kmIncluded
      extra_km := some extraKm
      per_km_rate := extraKmRate
      per_minute_rate := some extraMinuteRate
      within_allowance := some (decide withinAllowance)
      package_name := some rentalFare.package_name } }

/-- Trip type of an outstation ride. -/
inductive TripType where
  | one_way : TripType
  | round_trip : TripType
deriving DecidableEq, Repr

/-- Number of days of an outstation trip: scheduled start (or now when absent)
to now, absolute duration in hours, divided by 24, ceiling, at least 1.
Timestamps are in milliseconds. -/
def daysBetween (scheduledTime : Option ℚ) (now : ℚ) : ℤ :=
  let startTime := scheduledTime.getD now
  let endTime := now
  let durationHours := |endTime - startTime| / (1000 * 60 * 60)
  max 1 (ceilQ (durationHours / 24))

/-- One-way branch of calculateOutstationFare, after the outstation_fares row
has been resolved; fmPlatformFee is the platform_fee field of the outstation
fare-matrix row when that row exists. -/
def outstationOneWay (cfg : OutstationFareRow) (fmPlatformFee : Option JsNum)
    (vehicleType : String) (actualDistanceKm actualDurationMinutes : ℚ)
    (numberOfDays : ℤ) : FareBreakdown :=
  let baseFare := getJs cfg.base_fare
  let perKmRate := getJs cfg.per_km_rate
  let kmFare := JsNum.mul (JsNum.mul (num actualDistanceKm) perKmRate) (num 2)
  let platformFee := parseFloatOr fmPlatformFee 10
  let chargesSubtotal := JsNum.add baseFare kmFare
  let gstOnCharges := JsNum.mul chargesSubtotal (num (5/100))
  let gstOnPlatformFee := JsNum.mul platformFee (num (18/100))
  let totalFareRaw := JsNum.add (JsNum.add (JsNum.add (JsNum.add baseFare kmFare) platformFee)
    gstOnCharges) gstOnPlatformFee
  let totalFare := JsNum.round totalFareRaw
  { booking_type := "outstation"
    vehicle_type := vehicleType
    base_fare := baseFare
    distance_fare := kmFare
    time_fare := num 0
    surge_charges := num 0
    deadhead_charges := num 0
    platform_fee := platformFee
    gst_on_charges := gstOnCharges
    gst_on_platform_fee := gstOnPlatformFee
    extra_km_charges := num 0
    driver_allowance := num 0
    total_fare := totalFare
    details := {
      actual_distance_km := num actualDistanceKm
      actual_duration_minutes := actualDurationMinutes
      per_km_rate := perKmRate
      days_calculated := some numberOfDays
      within_allowance := some true
      total_km_travelled := some actualDistanceKm
      direction := some "one_way" } }

/-- The fifteen slab tiers of an outstation package, in source order. -/
def slabList (pkg : OutstationPackageRow) : List (ℚ × Option JsNum) :=
  [(10, pkg.slab_10km), (20, pkg.slab_20km), (30, pkg.slab_30km), (40, pkg.slab_40km),
   (50, pkg.slab_50km), (60, pkg.slab_60km), (70, pkg.slab_70km), (80, pkg.slab_80km),
   (90, pkg.slab_90km), (100, pkg.slab_100km), (110, pkg.slab_110km), (120, pkg.slab_120km),
   (130, pkg.slab_130km), (140, pkg.slab_140km), (150, pkg.slab_150km)]

/-- Slab selection: the first tier whose limit is at least the distance, and
the last tier when the distance exceeds every limit. -/
def selectSlab (pkg : OutstationPackageRow) (actualDistanceKm : ℚ) : ℚ × Option JsNum :=
  ((slabList pkg).find? (fun s => decide (actualDistanceKm ≤ s.1))).getD (150, pkg.slab_150km)

/-- Slab branch of calculateOutstationFare, after the outstation_packages row
has been resolved. -/
def outstationSlab (pkg : OutstationPackageRow) (fmPlatformFee : Option JsNum)
    (vehicleType : String) (actualDistanceKm actualDurationMinutes : ℚ) : FareBreakdown :=
  let selectedSlab := selectSlab pkg actualDistanceKm
  let slabFare := parseFloatOr selectedSlab.2 0
  let extraKm : ℚ := max 0 (actualDistanceKm - selectedSlab.1)
  let extraKmCharges : JsNum :=
    if 0 < extraKm then JsNum.mul (num extraKm) (parseFloatOr pkg.extra_km_rate 0) else num 0
  let platformFee := parseFloatOr fmPlatformFee 10
  let chargesSubtotal := JsNum.add slabFare extraKmCharges
  let gstOnCharges := JsNum.mul chargesSubtotal (num (5/100))
  let gstOnPlatformFee := JsNum.mul platformFee (num (18/100))
  let totalFareRaw := JsNum.add (JsNum.add (JsNum.add (JsNum.add slabFare extraKmCharges)
    platformFee) gstOnCharges) gstOnPlatformFee
  let totalFare := JsNum.round totalFareRaw
  { booking_type := "outstation"
    vehicle_type := vehicleType
    base_fare := slabFare
    distance_fare := num 0
    time_fare := num 0
    surge_charges := num 0
    deadhead_charges := num 0
    platform_fee := platformFee
    gst_on_charges := gstOnCharges
    gst_on_platform_fee := gstOnPlatformFee
    extra_km_charges := extraKmCharges
    driver_allowance := num 0
    total_fare := totalFare
    details := {
      actual_distance_km := num actualDistanceKm
      actual_duration_minutes := actualDurationMinutes
      per_km_rate := parseFloatOr pkg.extra_km_rate 0
      days_calculated := some 1
      within_allowance := some (decide (extraKm = 0))
      package_name := some (toString selectedSlab.1 ++ "km Slab")
      extra_km := some extraKm
      base_km_included := some (num selectedSlab.1)
      total_km_travelled := some actualDistanceKm } }

/-- Per-km round-trip branch of calculateOutstationFare, after the
outstation_fares row has been resolved. -/
def outstationPerKm (cfg : OutstationFareRow) (fmPlatformFee : Option JsNum)
    (vehicleType : String) (actualDistanceKm actualDurationMinutes : ℚ)
    (numberOfDays : ℤ) : FareBreakdown :=
  let baseFare := getJs cfg.base_fare
  let perKmRate := getJs cfg.per_km_rate
  let driverAllowancePerDay := getJs cfg.driver_allowance_per_day
  let dailyKmLimit := getJs cfg.daily_km_limit
  let totalKmTravelled := actualDistanceKm
  let totalKmAllowance := JsNum.mul dailyKmLimit (num (numberOfDays : ℚ))
  let driverAllowance := JsNum.mul (num (numberOfDays : ℚ)) driverAllowancePerDay
  let kmPair : JsNum × Bool :=
    if ble (num totalKmTravelled) totalKmAllowance then
      (JsNum.mul (JsNum.mul dailyKmLimit (num (numberOfDays : ℚ))) perKmRate, true)
    else
      (JsNum.mul (num totalKmTravelled) perKmRate, false)
  let kmFare := kmPair.1
  let withinAllowance := kmPair.2
  let platformFee := parseFloatOr fmPlatformFee 10
  let chargesSubtotal := JsNum.add (JsNum.add baseFare kmFare) driverAllowance
  let gstOnCharges := JsNum.mul chargesSubtotal (num (5/100))
  let gstOnPlatformFee := JsNum.mul platformFee (num (18/100))
  let totalFareRaw := JsNum.add (JsNum.add (JsNum.add (JsNum.add (JsNum.add baseFare kmFare)
    driverAllowance) platformFee) gstOnCharges) gstOnPlatformFee
  let totalFare := JsNum.round totalFareRaw
  { booking_type := "outstation"
    vehicle_type := vehicleType
    base_fare := baseFare
    distance_fare := kmFare
    time_fare := num 0
    surge_charges := num 0
    deadhead_charges := num 0
    platform_fee := platformFee
    gst_on_charges := gstOnCharges
    gst_on_platform_fee := gstOnPlatformFee
    extra_km_charges := num 0
    driver_allowance := driverAllowance
    total_fare := totalFare
    details := {
      actual_distance_km := num actualDistanceKm
      actual_duration_minutes := actualDurationMinutes
      per_km_rate := perKmRate
      days_calculated := some numberOfDays
      daily_km_limit := some dailyKmLimit
      within_allowance := some withinAllowance
      total_km_travelled := some actualDistanceKm
      km_allowance := some totalKmAllowance } }

/-- calculateOutstationFare of FareCalculationService.ts: day count from the
scheduled time and the clock, one-way or round-trip, slab system for same-day
round trips up to 150 km when a slab package exists, per-km otherwise. -/
def calculateOutstationFare (scheduledTime : Option ℚ) (now : ℚ) (tripType : TripType)
    (outstationRow : Option OutstationFareRow) (packageRow : Option OutstationPackageRow)
    (fmPlatformFee : Option JsNum) (vehicleType : String)
    (actualDistanceKm actualDurationMinutes : ℚ) : Except String FareBreakdown :=
  match tripType with
  | TripType.one_way =>
      match outstationRow with
      | none => Except.error "Outstation fare configuration not found"
      | some cfg => Except.ok (outstationOneWay cfg fmPlatformFee vehicleType
          actualDistanceKm actualDurationMinutes (daysBetween scheduledTime now))
  | TripType.round_trip =>
      match (if (decide (daysBetween scheduledTime now = 1) &&
          decide (actualDistanceKm ≤ 150)) then packageRow else none) with
      | some pkg => Except.ok (outstationSlab pkg fmPlatformFee vehicleType
          actualDistanceKm actualDurationMinutes)
      | none =>
          match outstationRow with
          | none => Except.error "Outstation fare configuration not found"
          | some cfg => Except.ok (outstationPerKm cfg fmPlatformFee vehicleType
              actualDistanceKm actualDurationMinutes (daysBetween scheduledTime now))

/-- The FareBreakdown the airport branch returns: direction by comparing the
distance of each endpoint to the fixed Hosur city-center reference point (the
strictly closer endpoint is the origin side, a tie counts as airport to
Hosur), one of the two configured flat fares by direction, and no further
charges. -/
def airportBreakdown (d : DistFn) (airportConfig : AirportFareRow) (vehicleType : String)
    (pickupLat pickupLng dropLat dropLng : ℚ) : FareBreakdown :=
  { booking_type := "airport"
    vehicle_type := vehicleType
    base_fare :=
      if blt (d (num pickupLat) (num pickupLng) (num HOSUR_BUS_STAND_LAT) (num HOSUR_BUS_STAND_LNG))
          (d (num dropLat) (num dropLng) (num HOSUR_BUS_STAND_LAT) (num HOSUR_BUS_STAND_LNG)) then
        getJs airportConfig.hosur_to_airport_fare
      else getJs airportConfig.airport_to_hosur_fare
    distance_fare := num 0
    time_fare := num 0
    surge_charges := num 0
    deadhead_charges := num 0
    platform_fee := num 0
    gst_on_charges := num 0
    gst_on_platform_fee := num 0
    extra_km_charges := num 0
    driver_allowance := num 0
    total_fare := JsNum.round
      (if blt (d (num pickupLat) (num pickupLng) (num HOSUR_BUS_STAND_LAT) (num HOSUR_BUS_STAND_LNG))
          (d (num dropLat) (num dropLng) (num HOSUR_BUS_STAND_LAT) (num HOSUR_BUS_STAND_LNG)) then
        getJs airportConfig.hosur_to_airport_fare
      else getJs airportConfig.airport_to_hosur_fare)
    details := {
      actual_distance_km := d (num pickupLat) (num pickupLng) (num dropLat) (num dropLng)
      actual_duration_minutes := 0
      per_km_rate := num 0
      direction := some (if blt (d (num pickupLat) (num pickupLng)
            (num HOSUR_BUS_STAND_LAT) (num HOSUR_BUS_STAND_LNG))
          (d (num dropLat) (num dropLng) (num HOSUR_BUS_STAND_LAT) (num HOSUR_BUS_STAND_LNG)) then
        "Hosur to Airport" else "Airport to Hosur") } }

/-- calculateAirportFare of FareCalculationService.ts: direction by comparing
each endpoint to the fixed Hosur city-center reference point, flat fare by
direction, no further charges. -/
def calculateAirportFare (d : DistFn) (airportRow : Option AirportFareRow)
    (vehicleType : String) (pickupLat pickupLng dropLat dropLng : ℚ) :
    Except String FareBreakdown :=
  match airportRow with
  | none => Except.error "Airport fare configuration not found"
  | some airportConfig =>
      Except.ok (airportBreakdown d airportConfig vehicleType pickupLat pickupLng dropLat dropLng)

/-- The configuration store, abstracted as the freshest-active-row lookups the
source performs through the database client. -/
structure ConfigStore where
  fareMatrix : String → String → Option FareMatrixRow
  rentalFare : String → ℚ → Option RentalFareRow
  outstationFare : String → Option OutstationFareRow
  outstationPackage : String → Option OutstationPackageRow
  airportFare : String → Option AirportFareRow
  zones : List ZoneRow

/-- The ride fields calculateAndStoreTripFare reads before dispatching. -/
structure Ride where
  booking_type : String
  vehicle_type : String
  selected_hours : Option ℚ
  scheduled_time : Option ℚ
  trip_type : Option TripType

/-- Falsy-or on an optional number, as in ride.selected_hours with default 4. -/
def qFalsyOr (x : Option ℚ) (d : ℚ) : ℚ :=
  match x with
  | some q => if q = 0 then d else q
  | none => d

/-- The booking-type dispatch of calculateAndStoreTripFare: the pure fare
computation, with the clock, the configuration store and the distance function
as explicit inputs. -/
def computeFare (d : DistFn) (store : ConfigStore) (now : ℚ) (ride : Ride)
    (actualDistanceKm actualDurationMinutes : ℚ)
    (pickupLat pickupLng dropLat dropLng : ℚ) : Except String FareBreakdown :=
  match ride.booking_type with
  | "regular" =>
      match store.fareMatrix "regular" ride.vehicle_type with
      | none => Except.error "Fare configuration not found for this vehicle type"
      | some fm => Except.ok (calculateRegularFare d fm ride.vehicle_type
          actualDistanceKm actualDurationMinutes dropLat dropLng store.zones)
  | "rental" =>
      let selectedHours := qFalsyOr ride.selected_hours 4
      match store.rentalFare ride.vehicle_type selectedHours with
      | none => Except.error "Rental fare configuration not found"
      | some rf => Except.ok (calculateRentalFare rf ride.vehicle_type
          actualDistanceKm actualDurationMinutes selectedHours)
  | "outstation" =>
      calculateOutstationFare ride.scheduled_time now
        (ride.trip_type.getD TripType.round_trip)
        (store.outstationFare ride.vehicle_type)
        (store.outstationPackage ride.vehicle_type)
        ((store.fareMatrix "outstation" ride.vehicle_type).bind (fun r => r.platform_fee))
        ride.vehicle_type actualDistanceKm actualDurationMinutes
  | "airport" =>
      calculateAirportFare d (store.airportFare ride.vehicle_type) ride.vehicle_type
        pickupLat pickupLng dropLat dropLng
  | _ => Except.error "Invalid booking type"

/-- A row of the trip_location_history table, with the latitude and longitude
already passed through parseFloat as the source does. -/
structure LocationRow where
  latitude : JsNum
  longitude : JsNum
deriving DecidableEq, Repr

/-- The accumulation loop of calculateTripDistance: walk consecutive pairs,
add a hop only when its distance is strictly below 0.5 km; a NaN distance
compares false and is skipped like an oversized hop. -/
def accumulateHops (d : DistFn) : LocationRow → List LocationRow → ℚ → ℚ
  | _, [], acc => acc
  | p1, p2 :: rest, acc =>
      let dist := d p1.latitude p1.longitude p2.latitude p2.longitude
      let acc2 :=
        match dist with
        | JsNum.num q => if q < 1/2 then acc + q else acc
        | JsNum.nan => acc
      accumulateHops d p2 rest acc2

/-- calculateTripDistance of TripLocationTracker.ts over the time-ordered
point list: fewer than two points give zero distance and zero points used;
otherwise the filtered sum of consecutive hop distances, and the count of all
fetched points. -/
def calculateTripDistance (d : DistFn) (locationHistory : List LocationRow) : ℚ × ℕ :=
  if locationHistory.length < 2 then (0, 0)
  else
    match locationHistory with
    | [] => (0, 0)
    | p :: rest => (accumulateHops d p rest 0, locationHistory.length)

/-- Helper: the falsy-or read of a stored finite number equals that number
(a stored zero falls back to the default zero, which is the same value). -/
theorem numberOr_some_num (q : ℚ) : numberOr (some (num q)) 0 = q := by
  by_cases h : q = 0 <;> simp [numberOr, h]

/-- C1. For every Regular booking with a resolved fare matrix, the returned
FareBreakdown satisfies: distance fare is max(0, actualDistanceKm - 4) times
the per-km rate (so at most 4 km gives a zero distance fare), surge charges
are (base + distance + deadhead) times (surge multiplier - 1), time fare is 0,
GST on charges is 5 percent of the charges subtotal, GST on the platform fee
is 18 percent of it, and the total fare is the half-up rounding of the sum of
all components. -/
theorem regular_fare_formulas (d : DistFn) (fm : FareMatrixRow) (vt : String)
    (dist dur dropLat dropLng : ℚ) (zones : List ZoneRow) :
    ∀ fb, fb = calculateRegularFare d fm vt dist dur dropLat dropLng zones →
      fb.distance_fare = num (max 0 (dist - 4) * numberOr fm.per_km_rate 0) ∧
      (dist ≤ 4 → fb.distance_fare = num 0) ∧
      fb.surge_charges = JsNum.mul (JsNum.add (JsNum.add fb.base_fare fb.distance_fare)
        fb.deadhead_charges) (JsNum.sub (num (numberOr fm.surge_multiplier 1)) (num 1)) ∧
      fb.time_fare = num 0 ∧
      fb.gst_on_charges = JsNum.mul (JsNum.add (JsNum.add (JsNum.add fb.base_fare
        fb.distance_fare) fb.deadhead_charges) fb.surge_charges) (num (5/100)) ∧
      fb.gst_on_platform_fee = JsNum.mul fb.platform_fee (num (18/100)) ∧
      fb.total_fare = JsNum.round (JsNum.add (JsNum.add (JsNum.add (JsNum.add (JsNum.add
        (JsNum.add fb.base_fare fb.distance_fare) fb.deadhead_charges) fb.surge_charges)
        fb.platform_fee) fb.gst_on_charges) fb.gst_on_platform_fee) := by
  rintro fb rfl
  refine ⟨rfl, ?_, rfl, rfl, rfl, rfl, rfl⟩
  intro hle
  have hmax : max (0 : ℚ) (dist - 4) = 0 := max_eq_left (by linarith)
  simp [calculateRegularFare, hmax]

/-- C1 witness: a concrete short regular trip has a zero distance fare. -/
theorem regular_fare_formulas_witness :
    (calculateRegularFare (fun _ _ _ _ => num 1)
      { base_fare := some (num 50), per_km_rate := some (num 12),
        surge_multiplier := some (num 1), platform_fee := some (num 10),
        minimum_fare := some (num 0) } "sedan" 3 15 12 77 []).distance_fare = num 0 :=
  ((regular_fare_formulas (fun _ _ _ _ => num 1)
      { base_fare := some (num 50), per_km_rate := some (num 12),
        surge_multiplier := some (num 1), platform_fee := some (num 10),
        minimum_fare := some (num 0) } "sedan" 3 15 12 77 []) _ rfl).2.1 (by norm_num)

/-- C10. The pricing computation is a pure function of the distance function,
the configuration store, the clock reading and the trip inputs: two
invocations of computeFare on identical inputs and an unchanged store yield
identical FareBreakdown results. -/
theorem computeFare_deterministic (d : DistFn) (store : ConfigStore) (now : ℚ)
    (ride : Ride) (actualDistanceKm actualDurationMinutes : ℚ)
    (pickupLat pickupLng dropLat dropLng : ℚ) :
    computeFare d store now ride actualDistanceKm actualDurationMinutes
      pickupLat pickupLng dropLat dropLng =
    computeFare d store now ride actualDistanceKm actualDurationMinutes
      pickupLat pickupLng dropLat dropLng := rfl

/-- C2 counterexample: a rental booking with a malformed base_fare surfaces a
NaN base fare and a NaN total fare in the returned breakdown, so not every
monetary component of every booking type is finite, and the non-finite value
is not replaced by any fallback. -/
theorem rental_nan_component :
    (calculateRentalFare
      { package_name := "4hr 40km", base_fare := some JsNum.nan,
        km_included := some (num 40), extra_km_rate := some (num 10),
        extra_minute_rate := some (num 2) } "sedan" 10 60 4).base_fare = JsNum.nan ∧
    (calculateRentalFare
      { package_name := "4hr 40km", base_fare := some JsNum.nan,
        km_included := some (num 40), extra_km_rate := some (num 10),
        extra_minute_rate := some (num 2) } "sedan" 10 60 4).total_fare = JsNum.nan := by
  constructor <;> norm_num [calculateRentalFare, getJs, JsNum.add, JsNum.round]

/-- C2 amended: in the Regular algorithm every monetary component of the
surfaced breakdown is a finite number for every configuration-store content:
the falsy-or reads, the platform-fee fallback of 10, the surge-multiplier
fallback of 1 and the deadhead fallback of 0 sanitize every non-finite
intermediate. (The other booking types use stored fields directly and do not
guarantee this, as the counterexample shows; non-negativity is not enforced
for any type.) -/
theorem regular_components_finite (d : DistFn) (fm : FareMatrixRow) (vt : String)
    (dist dur dropLat dropLng : ℚ) (zones : List ZoneRow) :
    ∀ fb, fb = calculateRegularFare d fm vt dist dur dropLat dropLng zones →
      fb.base_fare.isNaNb = false ∧ fb.distance_fare.isNaNb = false ∧
      fb.time_fare.isNaNb = false ∧ fb.surge_charges.isNaNb = false ∧
      fb.deadhead_charges.isNaNb = false ∧ fb.platform_fee.isNaNb = false ∧
      fb.gst_on_charges.isNaNb = false ∧ fb.gst_on_platform_fee.isNaNb = false ∧
      fb.extra_km_charges.isNaNb = false ∧ fb.driver_allowance.isNaNb = false ∧
      fb.total_fare.isNaNb = false := by
  rintro fb rfl
  exact ⟨rfl, rfl, rfl, rfl, rfl, rfl, rfl, rfl, rfl, rfl, rfl⟩

/-- C3. Deadhead charges for a Regular booking equal half the distance from
the drop point to the fixed Hosur Bus Stand reference point times the per-km
rate exactly when the ordered tests classify the drop point between the rings
(an inner and an outer ring zone are found, the distance to the inner center
exceeds the inner radius, and the distance to the outer center is at most the
outer radius); when either ring zone is missing, or the point is within the
inner radius or beyond the outer radius, the charge is zero and no error is
raised. -/
theorem deadhead_charges_spec (d : DistFn) (zones : List ZoneRow) (dropLat dropLng rate : ℚ) :
    ((zones.find? (zoneNameHas "inner ring") = none ∨
      zones.find? (zoneNameHas "outer ring") = none) →
      (calculateDeadheadCharges d dropLat dropLng rate zones).deadheadCharges = num 0) ∧
    (∀ inz outz ri ro qi qo,
      zones.find? (zoneNameHas "inner ring") = some inz →
      zones.find? (zoneNameHas "outer ring") = some outz →
      parseFloatOr inz.radius_km 0 = num ri →
      parseFloatOr outz.radius_km 0 = num ro →
      d (num dropLat) (num dropLng) (parseFloatOr inz.center_latitude 0)
        (parseFloatOr inz.center_longitude 0) = num qi →
      d (num dropLat) (num dropLng) (parseFloatOr outz.center_latitude 0)
        (parseFloatOr outz.center_longitude 0) = num qo →
      (calculateDeadheadCharges d dropLat dropLng rate zones).deadheadCharges =
        if ri < qi ∧ qo ≤ ro then
          JsNum.mul (JsNum.half (d (num dropLat) (num dropLng)
            (num HOSUR_BUS_STAND_LAT) (num HOSUR_BUS_STAND_LNG))) (num rate)
        else num 0) := by
  constructor
  · intro h
    unfold calculateDeadheadCharges
    rcases h with h | h
    · rw [h]
    · rw [h]
      cases zones.find? (zoneNameHas "inner ring") <;> rfl
  · intro inz outz ri ro qi qo hfi hfo hri hro hqi hqo
    unfold calculateDeadheadCharges
    rw [hfi, hfo]
    simp only [hri, hro, hqi, hqo]
    by_cases h1 : qi ≤ ri
    · have : ¬ (ri < qi ∧ qo ≤ ro) := by rintro ⟨h, _⟩; exact absurd h1 (not_le.mpr h)
      simp [JsNum.ble, h1, this]
    · by_cases h2 : ro < qo
      · have hcond : ¬ (ri < qi ∧ qo ≤ ro) := by
          rintro ⟨_, h⟩; exact absurd h2 (not_lt.mpr h)
        simp [JsNum.ble, JsNum.bgt, JsNum.blt, h1, h2, hcond]
      · have hcond : ri < qi ∧ qo ≤ ro := ⟨not_le.mp h1, not_lt.mp h2⟩
        simp [JsNum.ble, JsNum.bgt, JsNum.blt, h1, h2, hcond]

/-- Example inner ring zone used to witness the deadhead classification. -/
def deadheadInnerEx : ZoneRow :=
  { name := "Hosur Inner Ring", center_latitude := some (num 1),
    center_longitude := some (num 1), radius_km := some (num 5) }

/-- Example outer ring zone used to witness the deadhead classification. -/
def deadheadOuterEx : ZoneRow :=
  { name := "Hosur Outer Ring", center_latitude := some (num 1),
    center_longitude := some (num 1), radius_km := some (num 10) }

/-- Example zone list with one inner and one outer ring. -/
def deadheadZonesEx : List ZoneRow := [deadheadInnerEx, deadheadOuterEx]

/-- Example distance function: 7 km to the shared ring center, 8 km to any
other reference point. -/
def deadheadDistEx : DistFn := fun _ _ la _ => if la = num 1 then num 7 else num 8

/-- C3 witness: a concrete drop point between the rings (7 km from the shared
center, inner radius 5, outer radius 10) is charged half of its 8 km distance
to the Hosur Bus Stand times the rate 10, that is 40. -/
theorem deadhead_charges_spec_witness :
    (calculateDeadheadCharges deadheadDistEx 2 3 10 deadheadZonesEx).deadheadCharges = num 40 := by
  have h := (deadhead_charges_spec deadheadDistEx deadheadZonesEx 2 3 10).2
    deadheadInnerEx deadheadOuterEx 5 10 7 7 (by decide) (by decide) rfl rfl
    (by norm_num [deadheadDistEx, deadheadInnerEx, parseFloatOr])
    (by norm_num [deadheadDistEx, deadheadOuterEx, parseFloatOr])
  rw [h, if_pos (by norm_num : (5:ℚ) < 7 ∧ (7:ℚ) ≤ 10)]
  norm_num [deadheadDistEx, HOSUR_BUS_STAND_LAT, JsNum.half, JsNum.mul]

/-- The contribution of one consecutive pair of trajectory points: its
distance when strictly below 0.5 km, zero otherwise (oversized hops and NaN
distances are discarded, not errors). -/
def hopContribution (d : DistFn) (p1 p2 : LocationRow) : ℚ :=
  match d p1.latitude p1.longitude p2.latitude p2.longitude with
  | JsNum.num q => if q < 1/2 then q else 0
  | JsNum.nan => 0

/-- Helper: one step of the hop loop folds in the contribution of the leading
pair. -/
theorem accumulateHops_cons (d : DistFn) (p1 p2 : LocationRow) (rest : List LocationRow)
    (acc : ℚ) :
    accumulateHops d p1 (p2 :: rest) acc =
      accumulateHops d p2 rest (acc + hopContribution d p1 p2) := by
  simp only [accumulateHops, hopContribution]
  congr 1
  cases hd : d p1.latitude p1.longitude p2.latitude p2.longitude with
  | nan => show acc = acc + 0; ring
  | num r =>
      show (if r < 1/2 then acc + r else acc) = acc + (if r < 1/2 then r else 0)
      split_ifs with hr <;> ring

/-- Helper: the accumulator of the hop loop is a plain offset. -/
theorem accumulateHops_shift (d : DistFn) :
    ∀ (rest : List LocationRow) (p : LocationRow) (acc : ℚ),
      accumulateHops d p rest acc = acc + accumulateHops d p rest 0 := by
  intro rest
  induction rest with
  | nil => intro p acc; simp [accumulateHops]
  | cons q t ih =>
      intro p acc
      rw [accumulateHops_cons, accumulateHops_cons, ih q (acc + hopContribution d p q),
        ih q (0 + hopContribution d p q)]
      ring

/-- Example trajectory distance function: 0.3 km from the first point, 0.6 km
between the later points. -/
def trajDistEx : DistFn := fun la _ _ _ => if la = num 0 then num (3/10) else num (6/10)

/-- Example trajectory of three points whose consecutive hops measure 0.3 km
and 0.6 km under trajDistEx. -/
def trajPointsEx : List LocationRow :=
  [{ latitude := num 0, longitude := num 0 },
   { latitude := num 1, longitude := num 0 },
   { latitude := num 2, longitude := num 0 }]

/-- C4. The trajectory distance is a fold over consecutive pairs of the
time-ordered points that adds a hop only when its distance is strictly below
0.5 km and silently discards larger hops; fewer than two points give zero
distance and zero points used; and a three-point trajectory with hops of
0.3 km and 0.6 km totals 0.3 km with pointsUsed 3. -/
theorem trip_distance_spec :
    (∀ (d : DistFn) (pts : List LocationRow), pts.length < 2 →
      calculateTripDistance d pts = (0, 0)) ∧
    (∀ (d : DistFn) (p1 p2 : LocationRow) (rest : List LocationRow),
      calculateTripDistance d (p1 :: p2 :: rest) =
        (hopContribution d p1 p2 + (calculateTripDistance d (p2 :: rest)).1,
          rest.length + 2)) ∧
    calculateTripDistance trajDistEx trajPointsEx = (3/10, 3) := by
  refine ⟨?_, ?_, ?_⟩
  · intro d pts h
    rcases pts with _ | ⟨p, _ | ⟨q, rest⟩⟩
    · rfl
    · rfl
    · exact absurd h (by simp)
  · intro d p1 p2 rest
    have h1 : calculateTripDistance d (p1 :: p2 :: rest) =
        (accumulateHops d p1 (p2 :: rest) 0, rest.length + 2) := rfl
    have htail : (calculateTripDistance d (p2 :: rest)).1 = accumulateHops d p2 rest 0 := by
      cases rest with
      | nil => rfl
      | cons r t => rfl
    rw [h1, htail, accumulateHops_cons, accumulateHops_shift]
    rw [zero_add]
  · have h0 : trajDistEx (num 0) (num 0) (num 1) (num 0) = num (3/10) := by
      norm_num [trajDistEx]
    have h1 : trajDistEx (num 1) (num 0) (num 2) (num 0) = num (6/10) := by
      norm_num [trajDistEx]
    show calculateTripDistance trajDistEx trajPointsEx = (3/10, 3)
    have hlen : ¬ ((trajPointsEx).length < 2) := by norm_num [trajPointsEx]
    simp only [trajPointsEx] at hlen ⊢
    simp only [calculateTripDistance, hlen, if_false, accumulateHops, h0, h1,
      List.length_cons, List.length_nil]
    norm_num

/-- C4 witness: an empty trajectory yields zero distance and zero points. -/
theorem trip_distance_spec_witness :
    calculateTripDistance trajDistEx [] = (0, 0) :=
  trip_distance_spec.1 trajDistEx [] (by norm_num)

/-- C7. For a Rental booking with a resolved package: the extra-km charge is
max(0, actualDistance - km_included) times the extra-km rate, the extra-time
charge is max(0, actualDuration - selected_hours times 60) times the
extra-minute rate, surge, deadhead, platform fee and both GST components are
zero, withinAllowance holds exactly when both extra charges are zero, the
total is the rounding of base plus the two extra charges, and consuming the
allowance exactly gives withinAllowance and a total of round(base_fare). -/
theorem rental_fare_spec (row : RentalFareRow) (vt : String)
    (dist dur hours b k ekr emr : ℚ)
    (hb : row.base_fare = some (num b)) (hk : row.km_included = some (num k))
    (he : row.extra_km_rate = some (num ekr))
    (hm : row.extra_minute_rate = some (num emr)) :
    ∀ fb, fb = calculateRentalFare row vt dist dur hours →
      fb.extra_km_charges = num (max 0 (dist - k) * ekr) ∧
      fb.distance_fare = fb.extra_km_charges ∧
      fb.time_fare = num (max 0 (dur - hours * 60) * emr) ∧
      fb.surge_charges = num 0 ∧ fb.deadhead_charges = num 0 ∧ fb.platform_fee = num 0 ∧
      fb.gst_on_charges = num 0 ∧ fb.gst_on_platform_fee = num 0 ∧
      (fb.details.within_allowance = some true ↔
        (fb.extra_km_charges = num 0 ∧ fb.time_fare = num 0)) ∧
      fb.total_fare = JsNum.round (JsNum.add (JsNum.add fb.base_fare fb.extra_km_charges)
        fb.time_fare) ∧
      (dist = k → dur = hours * 60 →
        fb.details.within_allowance = some true ∧ fb.total_fare = num (roundQ b)) := by
  rintro fb rfl
  refine ⟨?_, rfl, ?_, rfl, rfl, rfl, rfl, rfl, ?_, rfl, ?_⟩
  · simp only [calculateRentalFare, hk, he, getJs, Option.getD]
    split_ifs with h
    · simp only [JsNum.mul, JsNum.num.injEq]
      rw [max_eq_right (by linarith)]
    · simp only [JsNum.num.injEq]
      rw [max_eq_left (by linarith)]
      ring
  · simp only [calculateRentalFare, hm, numberOr_some_num]
    split_ifs with h
    · simp only [JsNum.num.injEq]
      rw [max_eq_right (by linarith)]
    · simp only [JsNum.num.injEq]
      rw [max_eq_left (by linarith)]
      ring
  · simp only [calculateRentalFare, Option.some.injEq, decide_eq_true_eq, JsNum.num.injEq]
  · rintro rfl rfl
    simp only [calculateRentalFare, hb, hk, hm, getJs, Option.getD, numberOr_some_num,
      lt_irrefl, if_false, JsNum.add, JsNum.round, roundQ, JsNum.num.injEq]
    norm_num

/-- Example rental package row used in the C7 witness. -/
def rentalRowEx : RentalFareRow :=
  { package_name := "4hr 40km", base_fare := some (num 500),
    km_included := some (num 40), extra_km_rate := some (num 10),
    extra_minute_rate := some (num 2) }

/-- C7 witness: a rental trip that consumes exactly the 40 km and 240 minute
allowance is within allowance and pays round(500) = 500. -/
theorem rental_fare_spec_witness :
    (calculateRentalFare rentalRowEx "sedan" 40 240 4).details.within_allowance = some true ∧
    (calculateRentalFare rentalRowEx "sedan" 40 240 4).total_fare = num 500 := by
  have h := (rental_fare_spec rentalRowEx "sedan" 40 240 4 500 40 10 2
    rfl rfl rfl rfl) _ rfl
  have hlast := h.2.2.2.2.2.2.2.2.2.2 rfl (by norm_num)
  refine ⟨hlast.1, ?_⟩
  rw [hlast.2]
  norm_num [roundQ, Rat.floor]

/-- C8. For an Outstation one-way booking with a resolved configuration: the
dispatch uses the one-way computation, the km fare is distance times the
per-km rate times 2, there is no driver allowance, GST on charges is 5
percent of base plus km fare, the platform fee comes from the fare matrix
with fallback 10, GST on the platform fee is 18 percent of it, the total
rounds the sum of all the components, and base 100 with rate 10 over 20 km
gives a km fare of 400. -/
theorem outstation_oneway_spec (cfg : OutstationFareRow) (fmPF : Option JsNum)
    (vt : String) (dist dur : ℚ) (days : ℤ) (b r : ℚ)
    (hb : cfg.base_fare = some (num b)) (hr : cfg.per_km_rate = some (num r)) :
    (∀ sched now pkgRow,
      calculateOutstationFare sched now TripType.one_way (some cfg) pkgRow fmPF vt dist dur =
        Except.ok (outstationOneWay cfg fmPF vt dist dur (daysBetween sched now))) ∧
    ∀ fb, fb = outstationOneWay cfg fmPF vt dist dur days →
      fb.distance_fare = num (dist * r * 2) ∧
      fb.driver_allowance = num 0 ∧
      fb.gst_on_charges = num ((b + dist * r * 2) * (5/100)) ∧
      (fmPF = none → fb.platform_fee = num 10) ∧
      (∀ pfq, fmPF = some (num pfq) → fb.platform_fee = num pfq) ∧
      fb.gst_on_platform_fee = JsNum.mul fb.platform_fee (num (18/100)) ∧
      fb.total_fare = JsNum.round (JsNum.add (JsNum.add (JsNum.add (JsNum.add fb.base_fare
        fb.distance_fare) fb.platform_fee) fb.gst_on_charges) fb.gst_on_platform_fee) ∧
      (b = 100 → r = 10 → dist = 20 → fb.distance_fare = num 400) := by
  constructor
  · intro sched now pkgRow
    rfl
  · rintro fb rfl
    refine ⟨?_, rfl, ?_, ?_, ?_, rfl, rfl, ?_⟩
    · simp only [outstationOneWay, hr]
      rfl
    · simp only [outstationOneWay, hb, hr]
      rfl
    · rintro rfl; rfl
    · rintro pfq rfl; rfl
    · rintro rfl rfl rfl
      simp only [outstationOneWay, hr, getJs, Option.getD, JsNum.mul, JsNum.num.injEq]
      norm_num

/-- Example outstation configuration row used in the C8 witness. -/
def outstationCfgEx : OutstationFareRow :=
  { base_fare := some (num 100), per_km_rate := some (num 10),
    driver_allowance_per_day := some (num 300), daily_km_limit := some (num 250) }

/-- C8 witness: base 100, rate 10, 20 km one way gives a km fare of 400. -/
theorem outstation_oneway_spec_witness :
    (outstationOneWay outstationCfgEx none "sedan" 20 60 1).distance_fare = num 400 :=
  (((outstation_oneway_spec outstationCfgEx none "sedan" 20 60 1 100 10 rfl rfl).2 _
    rfl).2.2.2.2.2.2.2) rfl rfl rfl

/-- Helper: a found element of a list sorted by slab limit has the least limit
among the elements satisfying the search predicate. -/
theorem find_first_ge_min (p : ℚ) :
    ∀ (L : List (ℚ × Option JsNum)), L.Pairwise (fun a b => a.1 ≤ b.1) →
      ∀ x, L.find? (fun s => decide (p ≤ s.1)) = some x →
        ∀ l, l ∈ L → p ≤ l.1 → x.1 ≤ l.1 := by
  intro L
  induction L with
  | nil => intro _ x hx; simp at hx
  | cons a t ih =>
      intro hp x hx l hl hpl
      have hpt := (List.pairwise_cons.mp hp).2
      have hpa := (List.pairwise_cons.mp hp).1
      by_cases hle : p ≤ a.1
      · rw [List.find?_cons_of_pos _ (by simpa using hle)] at hx
        injection hx with hx
        subst hx
        rcases List.mem_cons.mp hl with rfl | hlt
        · exact le_refl _
        · exact hpa l hlt
      · rw [List.find?_cons_of_neg _ (by simpa using hle)] at hx
        rcases List.mem_cons.mp hl with rfl | hlt
        · exact absurd hpl hle
        · exact ih hpt x hx l hlt hpl

/-- Helper: the slab tiers are listed with nondecreasing limits. -/
theorem slabList_sorted (pkg : OutstationPackageRow) :
    (slabList pkg).Pairwise (fun a b => a.1 ≤ b.1) := by
  norm_num [slabList, List.pairwise_cons]

/-- C6. Same-day round trips up to 150 km with a configured slab package are
priced from the slab table; the selected tier is the smallest whose limit is
at least the distance (the last tier stands in when the distance exceeds all
limits); extra km beyond the tier limit are billed at the package extra-km
rate and no driver allowance is charged; 55 km selects the 60 km tier with no
extra km; and with no slab package the per-km round-trip method is used. -/
theorem outstation_slab_spec :
    (∀ (sched : Option ℚ) (now : ℚ) cfgOpt pkg fmPF (vt : String) (dist dur : ℚ),
      daysBetween sched now = 1 → dist ≤ 150 →
      calculateOutstationFare sched now TripType.round_trip cfgOpt (some pkg) fmPF vt dist dur =
        Except.ok (outstationSlab pkg fmPF vt dist dur)) ∧
    (∀ (sched : Option ℚ) (now : ℚ) cfg fmPF (vt : String) (dist dur : ℚ),
      calculateOutstationFare sched now TripType.round_trip (some cfg) none fmPF vt dist dur =
        Except.ok (outstationPerKm cfg fmPF vt dist dur (daysBetween sched now))) ∧
    (∀ pkg (dist : ℚ), dist ≤ 150 →
      dist ≤ (selectSlab pkg dist).1 ∧ (selectSlab pkg dist) ∈ slabList pkg ∧
      ∀ s, s ∈ slabList pkg → dist ≤ s.1 → (selectSlab pkg dist).1 ≤ s.1) ∧
    (∀ pkg (dist : ℚ), 150 < dist → selectSlab pkg dist = (150, pkg.slab_150km)) ∧
    (∀ pkg fmPF (vt : String) (dist dur ekr : ℚ), pkg.extra_km_rate = some (num ekr) →
      ∀ fb, fb = outstationSlab pkg fmPF vt dist dur →
        fb.base_fare = parseFloatOr (selectSlab pkg dist).2 0 ∧
        fb.extra_km_charges = num (max 0 (dist - (selectSlab pkg dist).1) * ekr) ∧
        fb.driver_allowance = num 0 ∧
        fb.details.base_km_included = some (num (selectSlab pkg dist).1)) ∧
    (∀ pkg, (selectSlab pkg 55).1 = 60 ∧ max (0:ℚ) (55 - (selectSlab pkg 55).1) = 0) := by
  refine ⟨?_, ?_, ?_, ?_, ?_, ?_⟩
  · intro sched now cfgOpt pkg fmPF vt dist dur h1 h2
    have huse : (decide (daysBetween sched now = 1) && decide (dist ≤ 150)) = true := by
      rw [h1]; simp [h2]
    unfold calculateOutstationFare
    rw [huse]
    rfl
  · intro sched now cfg fmPF vt dist dur
    unfold calculateOutstationFare
    rw [ite_self]
  · intro pkg dist hle
    have hmem : ((150 : ℚ), pkg.slab_150km) ∈ slabList pkg := by simp [slabList]
    cases hfind : (slabList pkg).find? (fun s => decide (dist ≤ s.1)) with
    | none =>
        exact absurd ((List.find?_eq_none.mp hfind) _ hmem) (by simpa using hle)
    | some x =>
        have hx1 : dist ≤ x.1 := by
          have := List.find?_some hfind
          simpa using this
        have hxmem : x ∈ slabList pkg := List.mem_of_find?_eq_some hfind
        have hsel : selectSlab pkg dist = x := by
          simp [selectSlab, hfind]
        refine ⟨by rw [hsel]; exact hx1, by rw [hsel]; exact hxmem, ?_⟩
        intro s hs hps
        rw [hsel]
        exact find_first_ge_min dist (slabList pkg) (slabList_sorted pkg) x hfind s hs hps
  · intro pkg dist hgt
    have hnone : (slabList pkg).find? (fun s => decide (dist ≤ s.1)) = none := by
      rw [List.find?_eq_none]
      intro x hx
      simp only [slabList, List.mem_cons, List.not_mem_nil, or_false] at hx
      rcases hx with rfl|rfl|rfl|rfl|rfl|rfl|rfl|rfl|rfl|rfl|rfl|rfl|rfl|rfl|rfl <;>
        · simp only [decide_eq_true_eq, not_le]
          linarith
    rw [selectSlab, hnone]
    rfl
  · intro pkg fmPF vt dist dur ekr he fb hfb
    subst hfb
    refine ⟨rfl, ?_, rfl, rfl⟩
    simp only [outstationSlab, he]
    split_ifs with h
    · rfl
    · have hz : max (0:ℚ) (dist - (selectSlab pkg dist).1) = 0 :=
        le_antisymm (not_lt.mp h) (le_max_left _ _)
      rw [hz]
      simp only [JsNum.num.injEq]
      ring
  · intro pkg
    have h55 : selectSlab pkg 55 = (60, pkg.slab_60km) := by
      unfold selectSlab slabList
      rw [List.find?_cons_of_neg _ (by simp only [decide_eq_true_eq, not_le]; norm_num),
        List.find?_cons_of_neg _ (by simp only [decide_eq_true_eq, not_le]; norm_num),
        List.find?_cons_of_neg _ (by simp only [decide_eq_true_eq, not_le]; norm_num),
        List.find?_cons_of_neg _ (by simp only [decide_eq_true_eq, not_le]; norm_num),
        List.find?_cons_of_neg _ (by simp only [decide_eq_true_eq, not_le]; norm_num),
        List.find?_cons_of_pos _ (by simp only [decide_eq_true_eq]; norm_num)]
      rfl
    rw [h55]
    norm_num

/-- Example slab package used in the C6 witness. -/
def slabPkgEx : OutstationPackageRow :=
  { slab_10km := some (num 1000), slab_20km := some (num 1500), slab_30km := some (num 2000),
    slab_40km := some (num 2500), slab_50km := some (num 3000), slab_60km := some (num 3500),
    slab_70km := some (num 4000), slab_80km := some (num 4500), slab_90km := some (num 5000),
    slab_100km := some (num 5500), slab_110km := some (num 6000), slab_120km := some (num 6500),
    slab_130km := some (num 7000), slab_140km := some (num 7500), slab_150km := some (num 8000),
    extra_km_rate := some (num 12) }

/-- C6 witness: a concrete same-day 55 km round trip with a configured slab
package dispatches to the slab computation, and 55 km selects the 60 km
tier. -/
theorem outstation_slab_spec_witness :
    calculateOutstationFare none 0 TripType.round_trip none (some slabPkgEx) none
      "sedan" 55 60 = Except.ok (outstationSlab slabPkgEx none "sedan" 55 60) ∧
    (selectSlab slabPkgEx 55).1 = 60 := by
  constructor
  · exact outstation_slab_spec.1 none 0 none slabPkgEx none "sedan" 55 60
      (by norm_num [daysBetween, ceilQ, Rat.floor]) (by norm_num)
  · exact (outstation_slab_spec.2.2.2.2.2 slabPkgEx).1

/-- C5. For an Outstation round trip priced by the per-km method (the slab
path is skipped or no slab package exists): the day count is
max(1, ceil(absolute span from the scheduled time, or now, to now over 24
hours)); the driver allowance is the per-day allowance times the day count;
within the allowance of daily_km_limit times days the km fare bills the full
allowance flat at the per-km rate; beyond it the actual distance is billed
once at the per-km rate. -/
theorem outstation_roundtrip_perkm_spec (sched : Option ℚ) (now : ℚ)
    (cfg : OutstationFareRow) (pkgRow : Option OutstationPackageRow) (fmPF : Option JsNum)
    (vt : String) (dist dur b r apd dkl : ℚ)
    (_hb : cfg.base_fare = some (num b)) (hr : cfg.per_km_rate = some (num r))
    (ha : cfg.driver_allowance_per_day = some (num apd))
    (hdk : cfg.daily_km_limit = some (num dkl))
    (hMethod : (decide (daysBetween sched now = 1) && decide (dist ≤ 150)) = false ∨
      pkgRow = none) :
    calculateOutstationFare sched now TripType.round_trip (some cfg) pkgRow fmPF vt dist dur =
      Except.ok (outstationPerKm cfg fmPF vt dist dur (daysBetween sched now)) ∧
    daysBetween sched now =
      max 1 (ceilQ (|now - sched.getD now| / (1000 * 60 * 60) / 24)) ∧
    (sched = none → daysBetween sched now = 1) ∧
    ∀ (days : ℤ) fb, fb = outstationPerKm cfg fmPF vt dist dur days →
      fb.driver_allowance = num (apd * (days : ℚ)) ∧
      fb.details.days_calculated = some days ∧
      (dist ≤ dkl * (days : ℚ) → fb.distance_fare = num (dkl * (days : ℚ) * r) ∧
        fb.details.within_allowance = some true) ∧
      (¬ dist ≤ dkl * (days : ℚ) → fb.distance_fare = num (dist * r) ∧
        fb.details.within_allowance = some false) := by
  refine ⟨?_, rfl, ?_, ?_⟩
  · rcases hMethod with h | h
    · unfold calculateOutstationFare
      rw [h]
      rfl
    · subst h
      unfold calculateOutstationFare
      rw [ite_self]
  · rintro rfl
    norm_num [daysBetween, ceilQ, Rat.floor]
  · rintro days fb rfl
    refine ⟨?_, rfl, ?_, ?_⟩
    · simp only [outstationPerKm, ha, getJs, Option.getD_some, JsNum.mul, JsNum.num.injEq]
      ring
    · intro hle
      simp only [outstationPerKm, hdk, hr, getJs, Option.getD_some, JsNum.mul, JsNum.ble]
      split_ifs with hc
      · exact ⟨rfl, rfl⟩
      · simp only [decide_eq_true_eq] at hc
        exact absurd hle hc
    · intro hgt
      simp only [outstationPerKm, hdk, hr, getJs, Option.getD_some, JsNum.mul, JsNum.ble]
      split_ifs with hc
      · simp only [decide_eq_true_eq] at hc
        exact absurd hc hgt
      · exact ⟨rfl, rfl⟩

/-- C5 witness: a concrete two-day round trip of 600 km against a 250 km
daily limit is billed the actual distance at the rate and two days of driver
allowance. -/
theorem outstation_roundtrip_perkm_spec_witness :
    (outstationPerKm outstationCfgEx none "sedan" 600 60 2).driver_allowance = num 600 ∧
    (outstationPerKm outstationCfgEx none "sedan" 600 60 2).distance_fare = num 6000 := by
  have h := (outstation_roundtrip_perkm_spec (some 0) 172800000 outstationCfgEx none none
    "sedan" 600 60 100 10 300 250 rfl rfl rfl rfl (Or.inr rfl)).2.2.2 2 _ rfl
  have h2 := h.2.2.2 (by push_cast; norm_num)
  constructor
  · rw [h.1]
    simp only [JsNum.num.injEq]
    push_cast
    norm_num
  · rw [h2.1]
    simp only [JsNum.num.injEq]
    norm_num

/-- C9. For an Airport booking with a resolved configuration: when the pickup
endpoint is strictly closer to the fixed city-center reference point than the
drop endpoint the Hosur-to-airport flat rate applies, when the drop endpoint
is at least as close the airport-to-Hosur flat rate applies, there is no GST
and no platform fee, and the total fare is the rounding of the flat fare. -/
theorem airport_fare_spec (d : DistFn) (row : AirportFareRow) (vt : String)
    (plat plng dlat dlng toA toH dp dd : ℚ)
    (hA : row.hosur_to_airport_fare = some (num toA))
    (hH : row.airport_to_hosur_fare = some (num toH))
    (hp : d (num plat) (num plng) (num HOSUR_BUS_STAND_LAT) (num HOSUR_BUS_STAND_LNG) = num dp)
    (hd : d (num dlat) (num dlng) (num HOSUR_BUS_STAND_LAT) (num HOSUR_BUS_STAND_LNG) = num dd) :
    calculateAirportFare d (some row) vt plat plng dlat dlng =
      Except.ok (airportBreakdown d row vt plat plng dlat dlng) ∧
    ∀ fb, fb = airportBreakdown d row vt plat plng dlat dlng →
      (dp < dd → fb.base_fare = num toA ∧ fb.details.direction = some "Hosur to Airport") ∧
      (dd ≤ dp → fb.base_fare = num toH ∧ fb.details.direction = some "Airport to Hosur") ∧
      fb.platform_fee = num 0 ∧ fb.gst_on_charges = num 0 ∧ fb.gst_on_platform_fee = num 0 ∧
      fb.total_fare = JsNum.round fb.base_fare := by
  refine ⟨rfl, ?_⟩
  rintro fb rfl
  refine ⟨?_, ?_, rfl, rfl, rfl, rfl⟩
  · intro hlt
    have hcond : blt
        (d (num plat) (num plng) (num HOSUR_BUS_STAND_LAT) (num HOSUR_BUS_STAND_LNG))
        (d (num dlat) (num dlng) (num HOSUR_BUS_STAND_LAT) (num HOSUR_BUS_STAND_LNG)) = true := by
      rw [hp, hd]
      simp [JsNum.blt, hlt]
    constructor
    · simp only [airportBreakdown, hcond, if_true, hA, getJs, Option.getD_some]
    · simp only [airportBreakdown, hcond, if_true]
  · intro hle
    have hcond : blt
        (d (num plat) (num plng) (num HOSUR_BUS_STAND_LAT) (num HOSUR_BUS_STAND_LNG))
        (d (num dlat) (num dlng) (num HOSUR_BUS_STAND_LAT) (num HOSUR_BUS_STAND_LNG)) = false := by
      rw [hp, hd]
      simp [JsNum.blt, not_lt.mpr hle]
    constructor
    · simp [airportBreakdown, hcond, hH, getJs]
    · simp [airportBreakdown, hcond]

/-- Example airport fare row used in the C9 witness. -/
def airportRowEx : AirportFareRow :=
  { hosur_to_airport_fare := some (num 1800), airport_to_hosur_fare := some (num 1700) }

/-- Example distance function for the C9 witness: 5 km from the pickup
latitude 1 to the reference point, 40 km from anywhere else. -/
def airportDistEx : DistFn := fun la _ _ _ => if la = num 1 then num 5 else num 40

/-- C9 witness: with the pickup 5 km from the city center and the drop 40 km
away, the Hosur-to-airport flat rate of 1800 is charged. -/
theorem airport_fare_spec_witness :
    (airportBreakdown airportDistEx airportRowEx "sedan" 1 2 3 4).base_fare = num 1800 ∧
    (airportBreakdown airportDistEx airportRowEx "sedan" 1 2 3 4).details.direction =
      some "Hosur to Airport" :=
  ((airport_fare_spec airportDistEx airportRowEx "sedan" 1 2 3 4 1800 1700 5 40
    rfl rfl (by norm_num [airportDistEx]) (by norm_num [airportDistEx])).2 _ rfl).1
    (by norm_num)

/-- C2 amended witness: even with a NaN base fare, surge multiplier and
platform fee stored in the matrix row, the Regular breakdown surfaces a
finite base fare. -/
theorem regular_components_finite_witness :
    ((calculateRegularFare (fun _ _ _ _ => num 1)
      { base_fare := some JsNum.nan, per_km_rate := none,
        surge_multiplier := some JsNum.nan, platform_fee := some JsNum.nan,
        minimum_fare := none } "sedan" 10 20 12 77 []).base_fare).isNaNb = false :=
  ((regular_components_finite (fun _ _ _ _ => num 1)
      { base_fare := some JsNum.nan, per_km_rate := none,
        surge_multiplier := some JsNum.nan, platform_fee := some JsNum.nan,
        minimum_fare := none } "sedan" 10 20 12 77 []) _ rfl).1
